import Mathlib

/-!
A shallow embedding of the core of the swirl background-job runner
(`src/swirl/src/runner.rs` and `src/swirl/src/errors.rs`), together with
theorems settling the specification's claims about it.

External effects (database queries, the connection pool, the performer,
caught panics) are modelled as explicit inputs: a `WorkerEnv` records the
outcome every external call would produce, and the embedded functions
compute the events sent on the channel, the lines printed to stderr, the
database operations issued, and the control-flow outcome, exactly as the
Rust source does.
-/

namespace Swirl

/-- A persisted job row (`storage::BackgroundJob`); the payload is kept as an
opaque string and timestamps are omitted, since no claim depends on them. -/
structure BackgroundJob where
  id : Int
  job_type : String
  data : String
  retries : Int
deriving DecidableEq, Repr

/-- `diesel::result::Error`, abstracted: the `RollbackTransaction` sentinel is
the only variant the runner inspects, so all other variants are collapsed
into an indexed `other` constructor. -/
inductive DieselError where
  | RollbackTransaction
  | other (code : Nat)
deriving DecidableEq, Repr

/-- `PerformError = Box<dyn Error>`, modelled by its display string, which is
all the runner ever uses it for. -/
abbrev PerformError := String

/-- The dynamic type of a caught panic payload, as probed by
`try_to_extract_panic_info`: a `PanicInfo`, a `&'static str`, a `String`,
or anything else. -/
inductive PanicPayload where
  | panicInfo (s : String)
  | staticStr (s : String)
  | ownedString (s : String)
  | otherPayload
deriving DecidableEq, Repr

/-- `try_to_extract_panic_info` (runner.rs:320-330): stringify the payload when
it downcasts to one of the three known carriers, else a generic message. -/
def try_to_extract_panic_info : PanicPayload → PerformError
  | .panicInfo s => "job panicked: " ++ s
  | .staticStr s => "job panicked: " ++ s
  | .ownedString s => "job panicked: " ++ s
  | .otherPayload => "job panicked"

/-- `Event` (runner/event.rs), the worker-to-orchestrator channel messages. -/
inductive Event (PoolError : Type) where
  | Working
  | NoJobAvailable
  | ErrorLoadingJob (e : DieselError)
  | FailedToAcquireConnection (e : PoolError)
deriving DecidableEq, Repr

/-- `FetchError` (errors.rs:52-66). -/
inductive FetchError (PoolError : Type) where
  | NoDatabaseConnection (e : PoolError)
  | FailedLoadingJob (e : DieselError)
  | NoMessageReceived
deriving DecidableEq, Repr

/-! ## The drain loop (`run_all_pending_jobs`, runner.rs:175-208)

One iteration of the loop is embedded as a pure function of the thread-pool
counters, the current `pending_messages`, and the outcome of
`receiver.recv_timeout` (`none` models a receive error, i.e. the timeout). -/

/-- What one loop iteration does after receiving: either continue with an
updated `pending_messages`, or return from `run_all_pending_jobs`. -/
inductive LoopStep (PoolError : Type) where
  | continueWith (pending : Nat)
  | ret (r : Except (FetchError PoolError) Unit)
deriving Repr

/-- The result of one iteration: how many worker tasks were dispatched, the
value of `pending_messages` at the moment the loop blocks on the channel,
and the step taken after the receive. -/
structure LoopIterResult (PoolError : Type) where
  dispatched : Nat
  pendingAtRecv : Nat
  step : LoopStep PoolError
deriving Repr

/-- One iteration of the `run_all_pending_jobs` loop (runner.rs:181-207).
`maxThreads` is `thread_pool.max_count()`, `activeThreads` is
`thread_pool.active_count()`, `pending` is `pending_messages` on entry, and
`recv` is the message received from the channel (`none` = timeout). -/
def loopIter {PoolError : Type} (maxThreads activeThreads pending : Nat)
    (recv : Option (Event PoolError)) : LoopIterResult PoolError :=
  let availableThreads := maxThreads - activeThreads
  let jobsToQueue := if pending = 0 then max availableThreads 1 else availableThreads
  let pendingMessages := pending + jobsToQueue
  let step : LoopStep PoolError :=
    match recv with
    | some .Working => .continueWith (pendingMessages - 1)
    | some .NoJobAvailable => .ret (.ok ())
    | some (.ErrorLoadingJob e) => .ret (.error (.FailedLoadingJob e))
    | some (.FailedToAcquireConnection e) => .ret (.error (.NoDatabaseConnection e))
    | none => .ret (.error .NoMessageReceived)
  ⟨jobsToQueue, pendingMessages, step⟩

/-! ## The worker task (`get_single_job`, runner.rs:223-278) -/

/-- What the dispatched closure `f` did when run under `catch_unwind`:
returned `Ok`, returned a `PerformError`, or panicked with some payload. -/
inductive PerformOutcome where
  | ok
  | err (e : PerformError)
  | panicked (p : PanicPayload)
deriving DecidableEq, Repr

/-- `catch_unwind(|| f(job)).map_err(|e| try_to_extract_panic_info(&e))
.and_then(|r| r)` (runner.rs:257-259). -/
def caughtResult : PerformOutcome → Except PerformError Unit
  | .ok => .ok ()
  | .err e => .error e
  | .panicked p => .error (try_to_extract_panic_info p)

/-- A database write issued by the worker transaction. -/
inductive DbOp where
  | deleteSuccessful (jobId : Int)
  | updateFailed (jobId : Int)
deriving DecidableEq, Repr

/-- The outcomes of every external call a worker task can make, fixed up
front: the pool checkout, the claim query (`find_next_unlocked_job(conn)
.optional()`), the performer run, and the database results of the two
finalization writes. `updateFailedDbResult` is the outcome of the UPDATE
inside `storage::update_failed_job`. -/
structure WorkerEnv (PoolError : Type) where
  poolGet : Except PoolError Unit
  findNext : Except DieselError (Option BackgroundJob)
  performOutcome : PerformOutcome
  deleteResult : Except DieselError Unit
  updateFailedDbResult : Except DieselError Unit
deriving Repr

/-- Everything observable that the transaction closure (runner.rs:240-269)
does: events sent, stderr lines printed, database writes issued, and the
value the closure returns to `conn.transaction`. -/
structure TxOutput (PoolError : Type) where
  events : List (Event PoolError)
  stderrLines : List String
  dbOps : List DbOp
  result : Except DieselError Unit
deriving Repr

/-- The transaction closure passed to `conn.transaction` (runner.rs:240-269).
Claim phase: on a claimed row send `Working`, on no row send
`NoJobAvailable` and return `Ok(())`, on a query error send
`ErrorLoadingJob` and return `Err(RollbackTransaction)`. Run phase: on
success `delete_successful_job(conn, job_id)?`; on failure print the
diagnostic and call `update_failed_job(conn, job_id)` as a bare statement
(its value is discarded), then fall through to `Ok(())`. -/
def txClosure {PoolError : Type} (env : WorkerEnv PoolError) : TxOutput PoolError :=
  match env.findNext with
  | .error e => ⟨[.ErrorLoadingJob e], [], [], .error .RollbackTransaction⟩
  | .ok none => ⟨[.NoJobAvailable], [], [], .ok ()⟩
  | .ok (some job) =>
    match caughtResult env.performOutcome with
    | .ok _ =>
      match env.deleteResult with
      | .ok _ => ⟨[.Working], [], [.deleteSuccessful job.id], .ok ()⟩
      | .error e => ⟨[.Working], [], [.deleteSuccessful job.id], .error e⟩
    | .error e =>
      ⟨[.Working], ["Job " ++ toString job.id ++ " failed to run: " ++ e],
        [.updateFailed job.id], .ok ()⟩

/-- Everything observable the whole worker task does, including whether a
transaction was opened, its result, and the argument of the final
`panic!` when the task escalates (`none` when it returns normally). -/
structure WorkerOutput (PoolError : Type) where
  events : List (Event PoolError)
  stderrLines : List String
  txOpened : Bool
  txResult : Option (Except DieselError Unit)
  dbOps : List DbOp
  panickedWith : Option DieselError
deriving Repr

/-- The `match job_run_result` block (runner.rs:271-276): `Ok(_)` and
`Err(RollbackTransaction)` fall through, any other error is the argument
of `panic!("Failed to update job: {:?}", e)`. -/
def panicOnUnexpected : Except DieselError Unit → Option DieselError
  | .ok _ => none
  | .error .RollbackTransaction => none
  | .error e => some e

/-- The body of the closure handed to `thread_pool.execute` in
`get_single_job` (runner.rs:231-277): check out a connection (on failure
send `FailedToAcquireConnection` and return), run the transaction, then
panic on any transaction error other than `RollbackTransaction`. -/
def workerTask {PoolError : Type} (env : WorkerEnv PoolError) : WorkerOutput PoolError :=
  match env.poolGet with
  | .error e => ⟨[.FailedToAcquireConnection e], [], false, none, [], none⟩
  | .ok _ =>
    let t := txClosure env
    ⟨t.events, t.stderrLines, true, some t.result, t.dbOps, panicOnUnexpected t.result⟩

/-! ## The registry and `run_single_job` (runner.rs:210-221) -/

/-- A registered performer; the environment and the connection pool it also
receives are irrelevant to the claims and are abstracted away. -/
def Performer := String → Except PerformError Unit

/-- The closure built in `run_single_job` (runner.rs:215-220): look the job
type up in the registry, fail with `Unknown job type {job_type}` when
absent, otherwise run the performer on the job's data. -/
def runSingleJobClosure (registry : String → Option Performer)
    (job : BackgroundJob) : Except PerformError Unit :=
  match registry job.job_type with
  | none => .error ("Unknown job type " ++ job.job_type)
  | some perform => perform job.data

/-- Repackage the closure's result as the `PerformOutcome` a non-panicking
run of it produces. -/
def outcomeOfRun : Except PerformError Unit → PerformOutcome
  | .ok _ => .ok
  | .error e => .err e

/-! ## Database state effects of the finalization writes

`storage.rs` is not among the sources; the row-level effects below are
modelled from the spec (§4.1) so that claims about resulting rows can be
stated. The database is a list of rows. -/

/-- Modelled from the spec: `storage::update_failed_job(id)` "increments
`retries` and sets `last_retry_at := now`" (timestamps are omitted from
the row model). -/
def update_failed_job_effect (db : List BackgroundJob) (jobId : Int) :
    List BackgroundJob :=
  db.map fun j => if j.id = jobId then { j with retries := j.retries + 1 } else j

/-- Modelled from the spec: `storage::delete_successful_job(id)` "deletes the
row with the given id". -/
def delete_successful_job_effect (db : List BackgroundJob) (jobId : Int) :
    List BackgroundJob :=
  db.filter fun j => j.id ≠ jobId

/-- Apply one issued database write to the row list. -/
def applyDbOp (db : List BackgroundJob) : DbOp → List BackgroundJob
  | .deleteSuccessful i => delete_successful_job_effect db i
  | .updateFailed i => update_failed_job_effect db i

/-- Apply a sequence of issued database writes in order. -/
def applyDbOps (db : List BackgroundJob) (ops : List DbOp) : List BackgroundJob :=
  ops.foldl applyDbOp db

/-! ## `check_for_failed_jobs` (runner.rs:293-311) and `FailedJobsError` -/

/-- The retry threshold; the spec fixes it as a constant ("e.g. 5"). -/
def MAX_RETRIES : Int := 5

/-- Modelled from the spec: `storage::failed_job_count` (storage.rs is not
among the sources) "returns the count of rows with `retries ≥ MAX_RETRIES`". -/
def failed_job_count (db : List BackgroundJob) : Int :=
  ((db.filter fun j => MAX_RETRIES ≤ j.retries).length : Int)

/-- `FailedJobsError` (errors.rs:113-126); the boxed cause of the hidden
`__Unknown` variant is modelled by its display string. -/
inductive FailedJobsError where
  | JobsFailed (n : Int)
  | unknownError (cause : String)
deriving DecidableEq, Repr

/-- The `PartialEq` implementation for `FailedJobsError` (errors.rs:142-149):
`JobsFailed` values compare by count, every other pairing is `false`. -/
def failedJobsErrorEq : FailedJobsError → FailedJobsError → Bool
  | .JobsFailed x, .JobsFailed y => x == y
  | _, _ => false

/-- `wait_for_jobs` (runner.rs:303-311): join the pool, then fail with a
formatted message when any worker panicked. `panicCount` is
`thread_pool.panic_count()` after the join. -/
def wait_for_jobs (panicCount : Nat) : Except String Unit :=
  if panicCount = 0 then .ok ()
  else .error (toString panicCount ++ " threads panicked")

/-- `check_for_failed_jobs` (runner.rs:293-301). `connResult` is the outcome
of `self.connection()` (its error already boxed to a string), and
`dbResult` is the row set the count query runs over, or the query's
database error. The `?` operators route every underlying failure into the
`__Unknown` variant via the `From` impls in errors.rs:130-140. -/
def check_for_failed_jobs (panicCount : Nat) (connResult : Except String Unit)
    (dbResult : Except DieselError (List BackgroundJob)) :
    Except FailedJobsError Unit :=
  match wait_for_jobs panicCount with
  | .error e => .error (.unknownError e)
  | .ok _ =>
    match connResult with
    | .error e => .error (.unknownError e)
    | .ok _ =>
      match dbResult with
      | .error e => .error (.unknownError (reprStr e))
      | .ok db =>
        let failed_jobs := failed_job_count db
        if failed_jobs = 0 then .ok () else .error (.JobsFailed failed_jobs)

/-! ## Concrete sample data used by witnesses and counterexamples -/

/-- Whether a transaction result is the `Ok` variant. -/
def resultIsOk : Except DieselError Unit → Bool
  | .ok _ => true
  | .error _ => false

/-- A sample job row, as created by the tests' `create_dummy_job`. -/
def jobA : BackgroundJob := ⟨1, "Foo", "null", 0⟩

/-- A worker environment in which a job is claimed, the performer fails with
"boom", and the UPDATE inside `update_failed_job` then fails with a
database error. -/
def envPerformFails : WorkerEnv Unit :=
  ⟨.ok (), .ok (some jobA), .err "boom", .ok (), .error (.other 0)⟩

/-- The worker environment induced by `run_single_job`'s closure for a given
registry and claimed job (connection checkout succeeding, both
finalization writes succeeding). -/
def workerEnvFor (registry : String → Option Performer) (job : BackgroundJob) :
    WorkerEnv Unit :=
  ⟨.ok (), .ok (some job), outcomeOfRun (runSingleJobClosure registry job), .ok (), .ok ()⟩

/-! ## Theorems settling the claims -/

/-- C9: for every caught panic payload, `try_to_extract_panic_info` returns
"job panicked: {payload}" when the payload downcasts to a `PanicInfo`, a
`&'static str` or a `String`, and exactly "job panicked" for any other
payload type. -/
theorem panic_info_extraction :
    (∀ s, try_to_extract_panic_info (.panicInfo s) = "job panicked: " ++ s)
    ∧ (∀ s, try_to_extract_panic_info (.staticStr s) = "job panicked: " ++ s)
    ∧ (∀ s, try_to_extract_panic_info (.ownedString s) = "job panicked: " ++ s)
    ∧ try_to_extract_panic_info .otherPayload = "job panicked" :=
  ⟨fun _ => rfl, fun _ => rfl, fun _ => rfl, rfl⟩

/-- C10: `JobsFailed(x) == JobsFailed(y)` compares the counts, every
comparison involving the hidden `__Unknown` variant is `false`, and in
particular an `__Unknown` value is not equal to itself, so the equality is
not reflexive. -/
theorem failed_jobs_error_eq_spec :
    (∀ x y : Int, failedJobsErrorEq (.JobsFailed x) (.JobsFailed y) = (x == y))
    ∧ (∀ (s : String) (b : FailedJobsError), failedJobsErrorEq (.unknownError s) b = false)
    ∧ (∀ (a : FailedJobsError) (s : String), failedJobsErrorEq a (.unknownError s) = false)
    ∧ (∀ s : String, failedJobsErrorEq (.unknownError s) (.unknownError s) = false) := by
  refine ⟨fun x y => rfl, fun s b => ?_, fun a s => ?_, fun s => rfl⟩
  · cases b <;> rfl
  · cases a <;> rfl

/-- C2: every received channel event is mapped exactly as follows: `Working`
decrements `pending_messages` by one and continues the loop;
`NoJobAvailable` returns `Ok(())`; `ErrorLoadingJob(e)` returns
`Err(FailedLoadingJob(e))`; `FailedToAcquireConnection(e)` returns
`Err(NoDatabaseConnection(e))`; a receive timeout returns
`Err(NoMessageReceived)`. -/
theorem run_all_pending_jobs_event_mapping {PoolError : Type}
    (m a p : Nat) (e : DieselError) (pe : PoolError) :
    (loopIter m a p (some (Event.Working : Event PoolError))).step
        = .continueWith ((loopIter m a p (some (Event.Working : Event PoolError))).pendingAtRecv - 1)
    ∧ (loopIter m a p (some (Event.NoJobAvailable : Event PoolError))).step = .ret (.ok ())
    ∧ (loopIter m a p (some (Event.ErrorLoadingJob e : Event PoolError))).step
        = .ret (.error (.FailedLoadingJob e))
    ∧ (loopIter m a p (some (Event.FailedToAcquireConnection pe))).step
        = .ret (.error (.NoDatabaseConnection pe))
    ∧ (loopIter m a p (none : Option (Event PoolError))).step
        = .ret (.error .NoMessageReceived) :=
  ⟨rfl, rfl, rfl, rfl, rfl⟩

/-- C3: with `available_threads = max_threads − active_threads`, the number of
worker tasks dispatched in one iteration is `max(available_threads, 1)`
when `pending_messages = 0` and exactly `available_threads` otherwise, and
the dispatched count is added to `pending_messages` before blocking on the
channel. -/
theorem run_all_pending_jobs_dispatch_count {PoolError : Type}
    (m a p : Nat) (recv : Option (Event PoolError)) (h : a ≤ m) :
    (loopIter m a p recv).dispatched = (if p = 0 then max (m - a) 1 else m - a)
    ∧ (loopIter m a p recv).pendingAtRecv = p + (loopIter m a p recv).dispatched :=
  ⟨rfl, rfl⟩

/-- Witness for C3 at `max_threads = 5`, `active_threads = 2`,
`pending_messages = 0`. -/
theorem run_all_pending_jobs_dispatch_count_witness :
    (loopIter 5 2 0 (some (Event.NoJobAvailable : Event Unit))).dispatched
        = (if (0 : Nat) = 0 then max (5 - 2) 1 else 5 - 2)
    ∧ (loopIter 5 2 0 (some (Event.NoJobAvailable : Event Unit))).pendingAtRecv
        = 0 + (loopIter 5 2 0 (some (Event.NoJobAvailable : Event Unit))).dispatched :=
  run_all_pending_jobs_dispatch_count 5 2 0 (some Event.NoJobAvailable) (by decide)

/-- C7: when the pool checkout fails, the worker task emits
`FailedToAcquireConnection` with the pool error and returns normally: it
does not panic, opens no transaction, and issues no database operation. -/
theorem connection_failure_is_recoverable {PoolError : Type}
    (env : WorkerEnv PoolError) (e : PoolError) (h : env.poolGet = .error e) :
    (workerTask env).events = [.FailedToAcquireConnection e]
    ∧ (workerTask env).txOpened = false
    ∧ (workerTask env).txResult = none
    ∧ (workerTask env).dbOps = []
    ∧ (workerTask env).panickedWith = none := by
  simp [workerTask, h]

/-- Witness for C7 at a concrete environment whose pool checkout fails. -/
theorem connection_failure_is_recoverable_witness :
    (workerTask (⟨.error 3, .ok none, .ok, .ok (), .ok ()⟩ : WorkerEnv Nat)).events
        = [.FailedToAcquireConnection 3]
    ∧ (workerTask (⟨.error 3, .ok none, .ok, .ok (), .ok ()⟩ : WorkerEnv Nat)).txOpened = false
    ∧ (workerTask (⟨.error 3, .ok none, .ok, .ok (), .ok ()⟩ : WorkerEnv Nat)).txResult = none
    ∧ (workerTask (⟨.error 3, .ok none, .ok, .ok (), .ok ()⟩ : WorkerEnv Nat)).dbOps = []
    ∧ (workerTask (⟨.error 3, .ok none, .ok, .ok (), .ok ()⟩ : WorkerEnv Nat)).panickedWith
        = none :=
  connection_failure_is_recoverable ⟨.error 3, .ok none, .ok, .ok (), .ok ()⟩ 3 rfl

/-- C4: inside the worker transaction, when the claim query returns no row the
task emits `NoJobAvailable` and the empty transaction commits by returning
`Ok`; when the claim query fails the task emits `ErrorLoadingJob` with that
error and returns the `RollbackTransaction` sentinel; when a row is claimed
the task emits `Working` and every finalization write it goes on to issue
targets the claimed row. -/
theorem claim_phase_behavior {PoolError : Type} :
    (∀ env : WorkerEnv PoolError, env.findNext = .ok none →
        (txClosure env).events = [.NoJobAvailable] ∧ (txClosure env).result = .ok ())
    ∧ (∀ (env : WorkerEnv PoolError) (e : DieselError), env.findNext = .error e →
        (txClosure env).events = [.ErrorLoadingJob e]
          ∧ (txClosure env).result = .error .RollbackTransaction)
    ∧ (∀ (env : WorkerEnv PoolError) (j : BackgroundJob), env.findNext = .ok (some j) →
        (txClosure env).events = [.Working]
          ∧ ((txClosure env).dbOps = [.deleteSuccessful j.id]
              ∨ (txClosure env).dbOps = [.updateFailed j.id])) := by
  refine ⟨fun env h => ?_, fun env e h => ?_, fun env j h => ?_⟩
  · simp [txClosure, h]
  · simp [txClosure, h]
  · cases hc : caughtResult env.performOutcome with
    | ok u =>
      cases hd : env.deleteResult with
      | ok v => simp [txClosure, h, hc, hd]
      | error e2 => simp [txClosure, h, hc, hd]
    | error e2 => simp [txClosure, h, hc]

/-- Witness for C4, exercising all three claim-phase branches at concrete
environments. -/
theorem claim_phase_behavior_witness :
    ((txClosure (⟨.ok (), .ok none, .ok, .ok (), .ok ()⟩ : WorkerEnv Unit)).events
          = [.NoJobAvailable]
      ∧ (txClosure (⟨.ok (), .ok none, .ok, .ok (), .ok ()⟩ : WorkerEnv Unit)).result
          = .ok ())
    ∧ ((txClosure (⟨.ok (), .error (.other 4), .ok, .ok (), .ok ()⟩ : WorkerEnv Unit)).events
          = [.ErrorLoadingJob (.other 4)]
      ∧ (txClosure (⟨.ok (), .error (.other 4), .ok, .ok (), .ok ()⟩ : WorkerEnv Unit)).result
          = .error .RollbackTransaction)
    ∧ ((txClosure (⟨.ok (), .ok (some jobA), .ok, .ok (), .ok ()⟩ : WorkerEnv Unit)).events
          = [.Working]
      ∧ ((txClosure (⟨.ok (), .ok (some jobA), .ok, .ok (), .ok ()⟩ : WorkerEnv Unit)).dbOps
            = [.deleteSuccessful jobA.id]
          ∨ (txClosure (⟨.ok (), .ok (some jobA), .ok, .ok (), .ok ()⟩ : WorkerEnv Unit)).dbOps
            = [.updateFailed jobA.id])) :=
  ⟨(@claim_phase_behavior Unit).1 ⟨.ok (), .ok none, .ok, .ok (), .ok ()⟩ rfl,
    (@claim_phase_behavior Unit).2.1 ⟨.ok (), .error (.other 4), .ok, .ok (), .ok ()⟩
      (.other 4) rfl,
    (@claim_phase_behavior Unit).2.2 ⟨.ok (), .ok (some jobA), .ok, .ok (), .ok ()⟩ jobA rfl⟩

/-- C5: after the worker transaction completes (the pool checkout having
succeeded), the worker task panics exactly when the transaction result is
an error other than the `RollbackTransaction` sentinel; `Ok` and
`Err(RollbackTransaction)` return normally. -/
theorem worker_panics_iff_unexpected_tx_error {PoolError : Type}
    (env : WorkerEnv PoolError) (h : env.poolGet = .ok ()) :
    ((workerTask env).panickedWith = none
        ↔ ((txClosure env).result = .ok ()
            ∨ (txClosure env).result = .error .RollbackTransaction))
    ∧ (∀ e : DieselError, (workerTask env).panickedWith = some e
        ↔ ((txClosure env).result = .error e ∧ e ≠ .RollbackTransaction)) := by
  have hw : (workerTask env).panickedWith = panicOnUnexpected (txClosure env).result := by
    simp [workerTask, h]
  rw [hw]
  cases hr : (txClosure env).result with
  | ok u => cases u; simp [panicOnUnexpected]
  | error e2 => cases e2 <;> simp [panicOnUnexpected]

/-- Witness for C5 at an environment whose transaction ends in an unexpected
database error. -/
theorem worker_panics_iff_unexpected_tx_error_witness :
    (((workerTask (⟨.ok (), .ok (some jobA), .ok, .error (.other 9), .ok ()⟩ : WorkerEnv Unit)).panickedWith
          = none
        ↔ ((txClosure (⟨.ok (), .ok (some jobA), .ok, .error (.other 9), .ok ()⟩ : WorkerEnv Unit)).result
              = .ok ()
            ∨ (txClosure (⟨.ok (), .ok (some jobA), .ok, .error (.other 9), .ok ()⟩ : WorkerEnv Unit)).result
              = .error .RollbackTransaction))
      ∧ ((workerTask (⟨.ok (), .ok (some jobA), .ok, .error (.other 9), .ok ()⟩ : WorkerEnv Unit)).panickedWith
            = some (.other 9)
          ↔ ((txClosure (⟨.ok (), .ok (some jobA), .ok, .error (.other 9), .ok ()⟩ : WorkerEnv Unit)).result
                = .error (.other 9)
              ∧ DieselError.other 9 ≠ .RollbackTransaction))) :=
  ⟨(worker_panics_iff_unexpected_tx_error
      ⟨.ok (), .ok (some jobA), .ok, .error (.other 9), .ok ()⟩ rfl).1,
    (worker_panics_iff_unexpected_tx_error
      ⟨.ok (), .ok (some jobA), .ok, .error (.other 9), .ok ()⟩ rfl).2 (.other 9)⟩

/-- C1 counterexample: in `envPerformFails` the performer fails, the failure
branch runs (it logs and issues the retry update), the database outcome of
the UPDATE inside `update_failed_job` is an error, and yet the transaction
closure returns `Ok`: the db result of `update_failed_job` is not
propagated as the result of that branch (runner.rs:265 is a bare statement,
unlike the `?` on runner.rs:262). -/
theorem update_failed_result_not_propagated :
    caughtResult envPerformFails.performOutcome = .error "boom"
    ∧ (txClosure envPerformFails).dbOps = [.updateFailed jobA.id]
    ∧ resultIsOk envPerformFails.updateFailedDbResult = false
    ∧ resultIsOk (txClosure envPerformFails).result = true :=
  ⟨rfl, rfl, rfl, rfl⟩

/-- C1 (amended): for every claimed job whose performer returns a failure
(including a converted panic), the worker logs the diagnostic to stderr,
then calls `update_failed_job`, and the branch discards `update_failed_job`'s
database outcome: the transaction closure returns `Ok(())` regardless of it. -/
theorem failure_branch_logs_and_updates {PoolError : Type}
    (env : WorkerEnv PoolError) (j : BackgroundJob) (e : PerformError)
    (h1 : env.findNext = .ok (some j)) (h2 : caughtResult env.performOutcome = .error e) :
    (txClosure env).stderrLines = ["Job " ++ toString j.id ++ " failed to run: " ++ e]
    ∧ (txClosure env).dbOps = [.updateFailed j.id]
    ∧ (txClosure env).result = .ok () := by
  simp [txClosure, h1, h2]

/-- Witness for the amended C1 at `envPerformFails`. -/
theorem failure_branch_logs_and_updates_witness :
    (txClosure envPerformFails).stderrLines
        = ["Job " ++ toString jobA.id ++ " failed to run: " ++ "boom"]
    ∧ (txClosure envPerformFails).dbOps = [.updateFailed jobA.id]
    ∧ (txClosure envPerformFails).result = .ok () :=
  failure_branch_logs_and_updates envPerformFails jobA "boom" rfl rfl

/-- C6: when the joined pool reports a non-zero panic count,
`check_for_failed_jobs` returns the opaque unknown-error variant (whatever
the database would have said); otherwise, when the connection and the count
query succeed, it returns `Ok(())` exactly when the count of rows with
`retries ≥ MAX_RETRIES` is zero and `JobsFailed(count)` when it is
positive. -/
theorem check_for_failed_jobs_spec
    (panicCount : Nat) (connResult : Except String Unit) (db : List BackgroundJob) :
    (panicCount ≠ 0 → ∀ dbr : Except DieselError (List BackgroundJob),
        check_for_failed_jobs panicCount connResult dbr
          = .error (.unknownError (toString panicCount ++ " threads panicked")))
    ∧ (panicCount = 0 → connResult = .ok () →
        ((failed_job_count db = 0 →
            check_for_failed_jobs panicCount connResult (.ok db) = .ok ())
          ∧ (failed_job_count db ≠ 0 →
            check_for_failed_jobs panicCount connResult (.ok db)
              = .error (.JobsFailed (failed_job_count db))))) := by
  constructor
  · intro hp dbr
    simp [check_for_failed_jobs, wait_for_jobs, hp]
  · intro hp hc
    subst hp
    subst hc
    constructor
    · intro hz
      simp [check_for_failed_jobs, wait_for_jobs, hz]
    · intro hz
      simp [check_for_failed_jobs, wait_for_jobs, hz]

/-- Witness for C6: two panicked workers yield the opaque error; with no
panics, an empty table yields `Ok` and one exhausted row yields
`JobsFailed 1`. -/
theorem check_for_failed_jobs_spec_witness :
    check_for_failed_jobs 2 (.ok ()) (.ok [])
        = .error (.unknownError (toString (2 : Nat) ++ " threads panicked"))
    ∧ check_for_failed_jobs 0 (.ok ()) (.ok []) = .ok ()
    ∧ check_for_failed_jobs 0 (.ok ()) (.ok [⟨2, "Foo", "null", 5⟩])
        = .error (.JobsFailed (failed_job_count [⟨2, "Foo", "null", 5⟩])) :=
  ⟨(check_for_failed_jobs_spec 2 (.ok ()) []).1 (by decide) (.ok []),
    ((check_for_failed_jobs_spec 0 (.ok ()) []).2 rfl rfl).1 (by decide),
    ((check_for_failed_jobs_spec 0 (.ok ()) [⟨2, "Foo", "null", 5⟩]).2 rfl rfl).2 (by decide)⟩

/-- C8: running a claimed job whose `job_type` is not in the registry is a
performer failure with message `Unknown job type {job_type}`: the worker
issues the retry update and no delete, so after the failure path the row
remains (the table keeps its size) with its `retries` counter raised from
0 to 1. -/
theorem unknown_job_type_is_failure
    (registry : String → Option Performer) (job : BackgroundJob)
    (db : List BackgroundJob)
    (hreg : registry job.job_type = none) (hmem : job ∈ db) (hr : job.retries = 0) :
    runSingleJobClosure registry job = .error ("Unknown job type " ++ job.job_type)
    ∧ (txClosure (workerEnvFor registry job)).dbOps = [.updateFailed job.id]
    ∧ { job with retries := 1 } ∈ applyDbOps db (txClosure (workerEnvFor registry job)).dbOps
    ∧ (applyDbOps db (txClosure (workerEnvFor registry job)).dbOps).length = db.length := by
  have hclo : runSingleJobClosure registry job
      = .error ("Unknown job type " ++ job.job_type) := by
    simp [runSingleJobClosure, hreg]
  have hops : (txClosure (workerEnvFor registry job)).dbOps = [.updateFailed job.id] := by
    simp [txClosure, workerEnvFor, hclo, outcomeOfRun, caughtResult]
  refine ⟨hclo, hops, ?_, ?_⟩
  · rw [hops]
    show { job with retries := 1 } ∈ update_failed_job_effect db job.id
    have : { job with retries := 1 }
        = (fun j => if j.id = job.id then { j with retries := j.retries + 1 } else j) job := by
      simp [hr]
    rw [this]
    exact List.mem_map_of_mem _ hmem
  · rw [hops]
    show (update_failed_job_effect db job.id).length = db.length
    simp [update_failed_job_effect]

/-- Witness for C8: a registry with no performers, one enqueued job. -/
theorem unknown_job_type_is_failure_witness :
    runSingleJobClosure (fun _ => none) jobA = .error ("Unknown job type " ++ jobA.job_type)
    ∧ (txClosure (workerEnvFor (fun _ => none) jobA)).dbOps = [.updateFailed jobA.id]
    ∧ { jobA with retries := 1 }
        ∈ applyDbOps [jobA] (txClosure (workerEnvFor (fun _ => none) jobA)).dbOps
    ∧ (applyDbOps [jobA] (txClosure (workerEnvFor (fun _ => none) jobA)).dbOps).length
        = [jobA].length :=
  unknown_job_type_is_failure (fun _ => none) jobA [jobA] rfl (List.mem_singleton.mpr rfl) rfl

end Swirl
